import Mathlib

/-!
Verification of the actor lifecycle machine of `src/actor/spawn.rs` (kameo).

The lifecycle function `run_actor_lifecycle` is generic over the actor type
`A`, its state wrapper `S : ActorState<A>` and the message payloads; we embed
it as a Lean function that is likewise parametric over the behavior
callbacks, modelled as pure functions returning their observable outcomes.
The mailbox is embedded as a FIFO queue of signals (the mailbox module is not
part of the excerpt; FIFO-per-producer delivery is its specified contract).
Cancellation (`Abortable`) is embedded as an abort schedule counted in
receive-suspension points.  The lifecycle produces, besides the terminal
`(actor, reason)` pair, a trace of events used to state ordering properties:
startup-sentinel enqueueing, signal dispatch, startup-gate release
(`Semaphore::add_permits`), reason finalization, raw-actor recovery
(`ActorState::shutdown`), link-death notification and the `on_stop` call.
-/

set_option maxHeartbeats 1000000

namespace Kameo

/-- Unique actor identity (opaque in the source; modelled as a natural number). -/
abbrev ActorID := Nat

/-- User-level error values of the behavior (`A::Error`), modelled opaquely. -/
abbrev Err := Nat

/-- Opaque description of a panic payload. -/
abbrev PanicMsg := Nat

/-- A contained abnormal outcome: either a behavior error wrapped by
`PanicError::new`, or an unwind payload caught by `catch_unwind` and wrapped
by `PanicError::new_boxed`. -/
inductive PanicError where
  | fromError (e : Err)
  | fromPanic (m : PanicMsg)
deriving DecidableEq, Repr

/-- `ActorStopReason`: the four terminal classifications. -/
inductive ActorStopReason where
  | Normal
  | Killed
  | Panicked (e : PanicError)
  | LinkDied (id : ActorID) (reason : ActorStopReason)
deriving DecidableEq, Repr

/-- `Signal`: the tagged union flowing through the mailbox.  `Message`
carries its payload together with the `sent_within_actor` flag (the
`actor_ref`/`reply` fields of the source are folded into the opaque
payload type `M`). -/
inductive Signal (M : Type) where
  | StartupFinished
  | Message (payload : M) (sentWithinActor : Bool)
  | LinkDied (id : ActorID) (reason : ActorStopReason)
  | Stop
deriving DecidableEq, Repr

/-- Observable events of one lifecycle run, in execution order. -/
inductive Event (M : Type) where
  | OnStartCompleted
  | EnqueueStartupFinished (delivered : Bool)
  | Dispatch (sig : Signal M)
  | DispatchClosed
  | ReleaseGate
  | FinalizeReason (r : ActorStopReason)
  | RecoverActor
  | NotifyLink (peer : ActorID) (selfId : ActorID) (reason : ActorStopReason) (delivered : Bool)
  | OnStop (r : ActorStopReason)
deriving DecidableEq, Repr

/-- The `ActorState<A>` contract: the state wrapper the lifecycle drives.
Each callback is modelled as a pure function from the wrapper state to the
updated state and its control outcome (`None` = continue, `Some r` =
propose stop with reason `r`). -/
structure ActorState (A S M : Type) where
  new_from_actor : A → S
  handle_startup_finished : S → S × Option ActorStopReason
  handle_message : S → M → Bool → S × Option ActorStopReason
  handle_link_died : S → ActorID → ActorStopReason → S × Option ActorStopReason
  handle_stop : S → S × Option ActorStopReason
  on_shutdown : S → ActorStopReason → S × Option ActorStopReason
  shutdown : S → A

/-- Outcome of `actor.on_start(..)` as observed through the
`catch_unwind` boundary: success, an `Err` of the behavior, or a panic. -/
inductive StartOutcome where
  | ok
  | errored (e : Err)
  | panicked (m : PanicMsg)
deriving DecidableEq, Repr

/-- The behavior of one actor: its `on_start`/`on_stop` hooks (both
mutating the actor value) and its `ActorState` wrapper implementation. -/
structure Behavior (A S M : Type) where
  on_start : A → A × StartOutcome
  state : ActorState A S M
  on_stop : A → ActorStopReason → A × Option Err

/-- The `.map(..).map_err(..).and_then(identity)` chain of the source,
turning the caught `on_start` outcome into `start_res`. -/
def startResult : StartOutcome → Option PanicError
  | .ok => none
  | .errored e => some (.fromError e)
  | .panicked m => some (.fromPanic m)

/-- Which `ActorState` callback a signal is dispatched to
(the four arms of `recv_mailbox_loop`). -/
def dispatchHandler (st : ActorState A S M) (s : S) : Signal M → S × Option ActorStopReason
  | .StartupFinished => st.handle_startup_finished s
  | .Message m w => st.handle_message s m w
  | .LinkDied i r => st.handle_link_died s i r
  | .Stop => st.handle_stop s

/-- Events recorded when a signal is dispatched: receiving
`StartupFinished` first releases the startup gate
(`startup_semaphore.add_permits(Semaphore::MAX_PERMITS)`). -/
def dispatchEvents : Signal M → List (Event M)
  | .StartupFinished => [Event.Dispatch Signal.StartupFinished, Event.ReleaseGate]
  | sig => [Event.Dispatch sig]

/-- Exit of the abortable section: either a finalized stop reason
(accepted by `on_shutdown`), or an abort observed (`Abortable` yielded
`Err(Aborted)`).  Carries the wrapper state at exit and the trace of
loop events. -/
inductive LoopExit (S M : Type) where
  | stopped (s : S) (finalReason : ActorStopReason) (tr : List (Event M))
  | aborted (s : S) (tr : List (Event M))
deriving Repr

def LoopExit.trace : LoopExit S M → List (Event M)
  | .stopped _ _ t => t
  | .aborted _ t => t

def LoopExit.state : LoopExit S M → S
  | .stopped s _ _ => s
  | .aborted s _ => s

def LoopExit.finalReason : LoopExit S M → ActorStopReason
  | .stopped _ r _ => r
  | .aborted _ _ => ActorStopReason.Killed

def LoopExit.isAborted : LoopExit S M → Bool
  | .stopped _ _ _ => false
  | .aborted _ _ => true

def LoopExit.consTrace (evs : List (Event M)) : LoopExit S M → LoopExit S M
  | .stopped s r t => .stopped s r (evs ++ t)
  | .aborted s t => .aborted s (evs ++ t)

/-- The abortable section: `Abortable::new(abortable_actor_loop(..))`.
`abortable_actor_loop` repeatedly runs `recv_mailbox_loop` and offers every
reason the inner loop yields to `on_shutdown`, resuming on veto; both loops
are fused here into one recursion.  `fuel` bounds the number of mailbox
receives (`none` result = the run did not finish within the bound);
`abortAt = some k` means the cancellation trigger is observed at the k-th
receive-suspension point.  An exhausted mailbox behaves as the closed
channel: `recv` yields the closed indication, handled like `Stop`. -/
def actor_loop (st : ActorState A S M) :
    Nat → Option Nat → S → List (Signal M) → Option (LoopExit S M)
  | 0, _, _, _ => none
  | fuel + 1, abortAt, s, mb =>
    if abortAt = some 0 then some (.aborted s []) else
    let ab := abortAt.map (· - 1)
    match mb with
    | [] =>
      match st.handle_stop s with
      | (s', none) =>
        (actor_loop st fuel ab s' []).map (·.consTrace [Event.DispatchClosed])
      | (s', some reason) =>
        match st.on_shutdown s' reason with
        | (s'', some final) => some (.stopped s'' final [Event.DispatchClosed])
        | (s'', none) =>
          (actor_loop st fuel ab s'' []).map (·.consTrace [Event.DispatchClosed])
    | sig :: rest =>
      match dispatchHandler st s sig with
      | (s', none) =>
        (actor_loop st fuel ab s' rest).map (·.consTrace (dispatchEvents sig))
      | (s', some reason) =>
        match st.on_shutdown s' reason with
        | (s'', some final) => some (.stopped s'' final (dispatchEvents sig))
        | (s'', none) =>
          (actor_loop st fuel ab s'' rest).map (·.consTrace (dispatchEvents sig))

/-- Result of one lifecycle run.  `outcome` is `.ok (actor, reason)` when
the function returns normally; `.error e` models the panic of
`on_stop_res.unwrap()` on `Err(e)` escaping the lifecycle. -/
structure LifecycleResult (A M : Type) where
  outcome : Except Err (A × ActorStopReason)
  reason : ActorStopReason
  aborted : Bool
  linksAfter : List ActorID
  trace : List (Event M)

/-- The mailbox contents seen by the receive loop: signals already queued
when the sentinel send happens, then — when the send succeeds — the
`StartupFinished` sentinel, then signals queued later (FIFO). -/
def mailboxAfterEnqueue (sendOk : Bool) (mbBefore mbAfter : List (Signal M)) :
    List (Signal M) :=
  if sendOk then mbBefore ++ Signal.StartupFinished :: mbAfter else mbBefore ++ mbAfter

/-- The startup-failure short circuit (`if let Err(err) = start_res` branch):
classify `Panicked`, build the wrapper from the raw actor, let `on_shutdown`
optionally replace the reason, tear the wrapper down, call `on_stop` with the
final reason and `.unwrap()` its result.  Links are not drained. -/
def startup_failure_exit (b : Behavior A S M) (links : List ActorID) (sendOk : Bool)
    (e : PanicError) (actor : A) : LifecycleResult A M :=
  let reason0 := ActorStopReason.Panicked e
  let shut := b.state.on_shutdown (b.state.new_from_actor actor) reason0
  let reason := shut.2.getD reason0
  let stopRes := b.on_stop (b.state.shutdown shut.1) reason
  { outcome :=
      match stopRes.2 with
      | some e2 => Except.error e2
      | none => Except.ok (stopRes.1, reason)
    reason := reason
    aborted := false
    linksAfter := links
    trace := [Event.OnStartCompleted, Event.EnqueueStartupFinished sendOk,
              Event.FinalizeReason reason, Event.RecoverActor, Event.OnStop reason] }

/-- The steady-state tail of the lifecycle: finalize the reason
(`unwrap_or(Killed)` on the abortable result), recover the raw actor via
`state.shutdown()`, drain the links map sending each peer one `LinkDied`
(delivery failures discarded), call `on_stop` and `.unwrap()` its result. -/
def steady_exit (b : Behavior A S M) (selfId : ActorID) (links : List ActorID)
    (linkSendOk : ActorID → Bool) (sendOk : Bool) (ex : LoopExit S M) :
    LifecycleResult A M :=
  let reason := ex.finalReason
  let stopRes := b.on_stop (b.state.shutdown ex.state) reason
  { outcome :=
      match stopRes.2 with
      | some e2 => Except.error e2
      | none => Except.ok (stopRes.1, reason)
    reason := reason
    aborted := ex.isAborted
    linksAfter := []
    trace := Event.OnStartCompleted :: Event.EnqueueStartupFinished sendOk ::
      (ex.trace ++ [Event.FinalizeReason reason, Event.RecoverActor] ++
        links.map (fun p => Event.NotifyLink p selfId reason (linkSendOk p)) ++
        [Event.OnStop reason]) }

/-- `run_actor_lifecycle`: run `on_start` inside the `catch_unwind`
boundary, unconditionally attempt to enqueue the `StartupFinished` sentinel
into the actor's own mailbox (`let _ = ..` : a send failure is discarded),
then either short-circuit on startup failure or enter the abortable
steady-state loop followed by the shutdown sequence.  `sendOk` models
whether the sentinel send succeeds; `linkSendOk p` whether the `LinkDied`
send to peer `p` succeeds. -/
def run_actor_lifecycle (b : Behavior A S M) (selfId : ActorID)
    (links : List ActorID) (linkSendOk : ActorID → Bool) (sendOk : Bool)
    (mbBefore mbAfter : List (Signal M)) (fuel : Nat) (abortAt : Option Nat)
    (actor0 : A) : Option (LifecycleResult A M) :=
  match startResult (b.on_start actor0).2 with
  | some e => some (startup_failure_exit b links sendOk e (b.on_start actor0).1)
  | none =>
    match actor_loop b.state fuel abortAt (b.state.new_from_actor (b.on_start actor0).1)
        (mailboxAfterEnqueue sendOk mbBefore mbAfter) with
    | none => none
    | some ex => some (steady_exit b selfId links linkSendOk sendOk ex)

/-- What one execution strategy produces: the value of the ambient
currently-executing-actor context (`CURRENT_ACTOR_ID`) seen by the
lifecycle, and the lifecycle result. -/
structure ExecOutcome (A M : Type) where
  ambientId : Option ActorID
  result : Option (LifecycleResult A M)

/-- Modelled from the spec: the `CURRENT_ACTOR_ID` task-local (declared
outside this excerpt) with `tokio::task_local` scoping semantics — a
"scoped context value bound for the duration of a task/thread's execution":
within `scope id fut` the ambient value is `some id` regardless of the
caller's ambient value. -/
def CURRENT_ACTOR_ID_scope (id : ActorID) (_callerAmbient : Option ActorID) :
    Option ActorID := some id

/-- A `PreparedActor` together with the environment of its run. -/
structure PreparedActor (A S M : Type) where
  behavior : Behavior A S M
  id : ActorID
  links : List ActorID
  linkSendOk : ActorID → Bool
  startupSendOk : Bool
  mbBefore : List (Signal M)
  mbAfter : List (Signal M)
  actor : A

/-- `PreparedActor::run`: drives the lifecycle inline on the caller's
context; the ambient `CURRENT_ACTOR_ID` is whatever the caller's is — the
source calls `run_actor_lifecycle` directly, without a `scope`. -/
def PreparedActor.run (p : PreparedActor A S M) (callerAmbient : Option ActorID)
    (fuel : Nat) (abortAt : Option Nat) : ExecOutcome A M :=
  { ambientId := callerAmbient
    result := run_actor_lifecycle p.behavior p.id p.links p.linkSendOk
      p.startupSendOk p.mbBefore p.mbAfter fuel abortAt p.actor }

/-- `PreparedActor::spawn`: `tokio::spawn(CURRENT_ACTOR_ID.scope(id, self.run()))`. -/
def PreparedActor.spawn (p : PreparedActor A S M) (callerAmbient : Option ActorID)
    (fuel : Nat) (abortAt : Option Nat) : ExecOutcome A M :=
  { ambientId := CURRENT_ACTOR_ID_scope p.id callerAmbient
    result := run_actor_lifecycle p.behavior p.id p.links p.linkSendOk
      p.startupSendOk p.mbBefore p.mbAfter fuel abortAt p.actor }

/-- `tokio::runtime::RuntimeFlavor`, as far as the source inspects it. -/
inductive RuntimeFlavor where
  | CurrentThread
  | MultiThread
deriving DecidableEq, Repr

/-- `PreparedActor::spawn_in_thread`: panics (modelled as `Except.error`
carrying the panic message) when the runtime flavor is `CurrentThread`,
before any thread is spawned; otherwise starts a thread that runs
`handle.block_on(CURRENT_ACTOR_ID.scope(id, self.run()))`. -/
def PreparedActor.spawn_in_thread (p : PreparedActor A S M) (flavor : RuntimeFlavor)
    (callerAmbient : Option ActorID) (fuel : Nat) (abortAt : Option Nat) :
    Except String (ExecOutcome A M) :=
  match flavor with
  | .CurrentThread =>
    Except.error "threaded actors are not supported in a single threaded tokio runtime"
  | .MultiThread =>
    Except.ok
      { ambientId := CURRENT_ACTOR_ID_scope p.id callerAmbient
        result := run_actor_lifecycle p.behavior p.id p.links p.linkSendOk
          p.startupSendOk p.mbBefore p.mbAfter fuel abortAt p.actor }

/-! Trace classifiers. -/

def Signal.isSentinel : Signal M → Bool
  | .StartupFinished => true
  | _ => false

def Event.isEnqueueEvt : Event M → Bool
  | .EnqueueStartupFinished _ => true
  | _ => false

def Event.isDispatchEvt : Event M → Bool
  | .Dispatch _ => true
  | .DispatchClosed => true
  | _ => false

def Event.isReleaseEvt : Event M → Bool
  | .ReleaseGate => true
  | _ => false

def Event.isSentinelDispatchEvt : Event M → Bool
  | .Dispatch .StartupFinished => true
  | _ => false

def Event.isNotifyEvt : Event M → Bool
  | .NotifyLink _ _ _ _ => true
  | _ => false

def Event.isFinalizeEvt : Event M → Bool
  | .FinalizeReason _ => true
  | _ => false

def Event.isRecoverEvt : Event M → Bool
  | .RecoverActor => true
  | _ => false

def Event.isOnStopEvt : Event M → Bool
  | .OnStop _ => true
  | _ => false

/-- Events an actor-loop iteration can emit: dispatches and gate releases. -/
def Event.isLoopEvt : Event M → Bool
  | .Dispatch _ => true
  | .DispatchClosed => true
  | .ReleaseGate => true
  | _ => false

/-- A `LinkDied` notification event aimed at peer `p`. -/
def Event.notifyTo (p : ActorID) : Event M → Bool
  | .NotifyLink q _ _ _ => q == p
  | _ => false

/-! Helper lemmas about dispatch events and the loop trace. -/

/-- A `NotifyLink` event aimed at peer `p` and carrying this actor's id
`sid` and the reason `r`. -/
def Event.notifyExact (p sid : ActorID) (r : ActorStopReason) : Event M → Bool
  | .NotifyLink q i r2 _ => decide (q = p) && decide (i = sid) && decide (r2 = r)
  | _ => false

/-- An `OnStop` event carrying exactly reason `r`. -/
def Event.isOnStopWith (r : ActorStopReason) : Event M → Bool
  | .OnStop r2 => decide (r2 = r)
  | _ => false

/-- The shutdown ordering asserted by the spec's concurrency section:
reason finalized, then linked peers notified, then the raw actor value
recovered, then the termination hook invoked. -/
def claimedShutdownOrder (tr : List (Event M)) : Bool :=
  decide (tr.findIdx Event.isFinalizeEvt < tr.findIdx Event.isNotifyEvt) &&
  decide (tr.findIdx Event.isNotifyEvt < tr.findIdx Event.isRecoverEvt) &&
  decide (tr.findIdx Event.isRecoverEvt < tr.findIdx Event.isOnStopEvt)

/-! Concrete instances used by witnesses and counterexamples.  The actor
value, wrapper state and message payloads are all natural numbers. -/

/-- A simple `ActorState` wrapper over a `Nat` actor: messages are added to
the state, an exhausted mailbox stops with `Normal`, `on_shutdown` accepts
every proposed reason. -/
def natState : ActorState Nat Nat Nat where
  new_from_actor := fun a => a
  handle_startup_finished := fun s => (s, none)
  handle_message := fun s m _ => (s + m, none)
  handle_link_died := fun s _ _ => (s, none)
  handle_stop := fun s => (s, some ActorStopReason.Normal)
  on_shutdown := fun s r => (s, some r)
  shutdown := fun s => s

/-- A behavior whose hooks all succeed. -/
def okBehavior : Behavior Nat Nat Nat where
  on_start := fun a => (a + 1, StartOutcome.ok)
  state := natState
  on_stop := fun a _ => (a, none)

/-- A behavior whose startup hook panics. -/
def failStartBehavior : Behavior Nat Nat Nat :=
  { okBehavior with on_start := fun a => (a, StartOutcome.panicked 3) }

/-- A behavior whose final `on_stop` hook returns an error. -/
def errStopBehavior : Behavior Nat Nat Nat :=
  { okBehavior with on_stop := fun a _ => (a, some 7) }

/-- A prepared actor over `okBehavior` with id 1 and no links. -/
def okPrepared : PreparedActor Nat Nat Nat where
  behavior := okBehavior
  id := 1
  links := []
  linkSendOk := fun _ => true
  startupSendOk := true
  mbBefore := []
  mbAfter := []
  actor := 0

/-- The loop exit of the concrete `okBehavior` runs below: one sentinel
dispatched, gate released, then the closed channel stops the actor. -/
def okRunExit : LoopExit Nat Nat :=
  LoopExit.stopped 1 ActorStopReason.Normal
    ([Event.Dispatch Signal.StartupFinished, Event.ReleaseGate] ++ [Event.DispatchClosed])

/-- Result of running `okBehavior` (id 1, no links, fuel 4, no abort). -/
def okRunRes : LifecycleResult Nat Nat :=
  steady_exit okBehavior 1 [] (fun _ => true) true okRunExit

/-- Result of running `okBehavior` with one linked peer (id 5). -/
def okLinkRunRes : LifecycleResult Nat Nat :=
  steady_exit okBehavior 1 [5] (fun _ => true) true okRunExit

/-- Result of running `failStartBehavior`: the startup-failure short circuit. -/
def failRunRes : LifecycleResult Nat Nat :=
  startup_failure_exit failStartBehavior [] true (PanicError.fromPanic 3) 0

/-- Result of running `okBehavior` with the cancellation trigger already
fired when the steady loop starts. -/
def killRunRes : LifecycleResult Nat Nat :=
  steady_exit okBehavior 1 [] (fun _ => true) true (LoopExit.aborted 1 [])

/-- Result of running `okBehavior` with one linked peer while every
mailbox send — the sentinel enqueue and the link notification — fails. -/
def failSendRunRes : LifecycleResult Nat Nat :=
  steady_exit okBehavior 1 [5] (fun _ => false) false
    (LoopExit.stopped 1 ActorStopReason.Normal [Event.DispatchClosed])

theorem LoopExit.trace_consTrace (evs : List (Event M)) (ex : LoopExit S M) :
    (ex.consTrace evs).trace = evs ++ ex.trace := by
  cases ex <;> rfl

theorem dispatchEvents_loopEvt (sig : Signal M) :
    ∀ e ∈ dispatchEvents sig, Event.isLoopEvt e = true := by
  cases sig <;> simp [dispatchEvents, Event.isLoopEvt]

theorem dispatchEvents_release_count (sig : Signal M) :
    (dispatchEvents sig).countP Event.isReleaseEvt =
      (dispatchEvents sig).countP Event.isSentinelDispatchEvt := by
  cases sig <;>
    simp [dispatchEvents, List.countP_cons, Event.isReleaseEvt, Event.isSentinelDispatchEvt]

theorem dispatchEvents_sentinel_count (sig : Signal M) :
    (dispatchEvents sig).countP Event.isSentinelDispatchEvt =
      if Signal.isSentinel sig then 1 else 0 := by
  cases sig <;>
    simp [dispatchEvents, List.countP_cons, Signal.isSentinel, Event.isSentinelDispatchEvt]

/-- Every event a loop exit's trace holds is a loop event (a dispatch or a
gate release); gate releases and sentinel dispatches are in bijection; and
no more sentinels are dispatched than the mailbox holds. -/
theorem actor_loop_trace (st : ActorState A S M) :
    ∀ (fuel : Nat) (abortAt : Option Nat) (s : S) (mb : List (Signal M))
      (ex : LoopExit S M), actor_loop st fuel abortAt s mb = some ex →
      (∀ e ∈ ex.trace, Event.isLoopEvt e = true) ∧
      ex.trace.countP Event.isReleaseEvt = ex.trace.countP Event.isSentinelDispatchEvt ∧
      ex.trace.countP Event.isSentinelDispatchEvt ≤ mb.countP Signal.isSentinel := by
  intro fuel
  induction fuel with
  | zero =>
    intro abortAt s mb ex h
    simp [actor_loop] at h
  | succ fuel ih =>
    intro abortAt s mb ex h
    rw [actor_loop] at h
    split at h
    · cases h
      simp [LoopExit.trace]
    · cases mb with
      | nil =>
        simp only at h
        simp only [List.countP_nil]
        rcases hhs : st.handle_stop s with ⟨s', r⟩
        rw [hhs] at h
        cases r with
        | none =>
          simp only at h
          rcases Option.map_eq_some'.mp h with ⟨ex', hrec, rfl⟩
          obtain ⟨h1, h2, h3⟩ := ih _ _ _ _ hrec
          rw [LoopExit.trace_consTrace]
          refine ⟨?_, ?_, ?_⟩
          · intro e he
            rcases List.mem_append.mp he with he | he
            · simp at he; subst he; rfl
            · exact h1 e he
          · simp [List.countP_append, List.countP_cons, Event.isReleaseEvt,
              Event.isSentinelDispatchEvt, h2]
          · simpa [List.countP_append, List.countP_cons,
              Event.isSentinelDispatchEvt] using h3
        | some reason =>
          simp only at h
          rcases hsd : st.on_shutdown s' reason with ⟨s'', r2⟩
          rw [hsd] at h
          cases r2 with
          | none =>
            simp only at h
            rcases Option.map_eq_some'.mp h with ⟨ex', hrec, rfl⟩
            obtain ⟨h1, h2, h3⟩ := ih _ _ _ _ hrec
            rw [LoopExit.trace_consTrace]
            refine ⟨?_, ?_, ?_⟩
            · intro e he
              rcases List.mem_append.mp he with he | he
              · simp at he; subst he; rfl
              · exact h1 e he
            · simp [List.countP_append, List.countP_cons, Event.isReleaseEvt,
                Event.isSentinelDispatchEvt, h2]
            · simpa [List.countP_append, List.countP_cons,
                Event.isSentinelDispatchEvt] using h3
          | some final =>
            simp only at h
            cases h
            simp [LoopExit.trace, List.countP_cons, Event.isReleaseEvt,
              Event.isSentinelDispatchEvt, Event.isLoopEvt]
      | cons sig rest =>
        simp only at h
        rcases hdh : dispatchHandler st s sig with ⟨s', r⟩
        rw [hdh] at h
        cases r with
        | none =>
          simp only at h
          rcases Option.map_eq_some'.mp h with ⟨ex', hrec, rfl⟩
          obtain ⟨h1, h2, h3⟩ := ih _ _ _ _ hrec
          rw [LoopExit.trace_consTrace]
          refine ⟨?_, ?_, ?_⟩
          · intro e he
            rcases List.mem_append.mp he with he | he
            · exact dispatchEvents_loopEvt sig e he
            · exact h1 e he
          · simp [List.countP_append, h2, dispatchEvents_release_count]
          · rw [List.countP_append, List.countP_cons, dispatchEvents_sentinel_count]
            cases hs : Signal.isSentinel sig <;> simp <;> omega
        | some reason =>
          simp only at h
          rcases hsd : st.on_shutdown s' reason with ⟨s'', r2⟩
          rw [hsd] at h
          cases r2 with
          | none =>
            simp only at h
            rcases Option.map_eq_some'.mp h with ⟨ex', hrec, rfl⟩
            obtain ⟨h1, h2, h3⟩ := ih _ _ _ _ hrec
            rw [LoopExit.trace_consTrace]
            refine ⟨?_, ?_, ?_⟩
            · intro e he
              rcases List.mem_append.mp he with he | he
              · exact dispatchEvents_loopEvt sig e he
              · exact h1 e he
            · simp [List.countP_append, h2, dispatchEvents_release_count]
            · rw [List.countP_append, List.countP_cons, dispatchEvents_sentinel_count]
              cases hs : Signal.isSentinel sig <;> simp <;> omega
          | some final =>
            simp only at h
            cases h
            refine ⟨dispatchEvents_loopEvt sig, dispatchEvents_release_count sig, ?_⟩
            simp only [LoopExit.trace, List.countP_cons, dispatchEvents_sentinel_count]
            cases hs : Signal.isSentinel sig <;> simp

/-- Loop events are never sentinel-enqueue events. -/
theorem loopEvt_not_enqueue (e : Event M) (h : Event.isLoopEvt e = true) :
    Event.isEnqueueEvt e = false := by
  cases e <;> simp_all [Event.isLoopEvt, Event.isEnqueueEvt]

/-- Loop events are never link-notification events. -/
theorem loopEvt_not_notify (e : Event M) (h : Event.isLoopEvt e = true) :
    Event.isNotifyEvt e = false := by
  cases e <;> simp_all [Event.isLoopEvt, Event.isNotifyEvt]

/-- Loop events are never `on_stop` events. -/
theorem loopEvt_not_onStop (e : Event M) (h : Event.isLoopEvt e = true) :
    Event.isOnStopEvt e = false := by
  cases e <;> simp_all [Event.isLoopEvt, Event.isOnStopEvt]

/-- Loop events are never reason-finalization events. -/
theorem loopEvt_not_finalize (e : Event M) (h : Event.isLoopEvt e = true) :
    Event.isFinalizeEvt e = false := by
  cases e <;> simp_all [Event.isLoopEvt, Event.isFinalizeEvt]

/-- Loop events are never raw-actor-recovery events. -/
theorem loopEvt_not_recover (e : Event M) (h : Event.isLoopEvt e = true) :
    Event.isRecoverEvt e = false := by
  cases e <;> simp_all [Event.isLoopEvt, Event.isRecoverEvt]

/-- Loop events never notify a peer. -/
theorem loopEvt_not_notifyTo (p : ActorID) (e : Event M) (h : Event.isLoopEvt e = true) :
    Event.notifyTo p e = false := by
  cases e <;> simp_all [Event.isLoopEvt, Event.notifyTo]

/-- A list of loop events has none of a given kind of non-loop event. -/
theorem countP_eq_zero_of_loopEvts (q : Event M → Bool)
    (hq : ∀ e : Event M, Event.isLoopEvt e = true → q e = false)
    (l : List (Event M)) (hl : ∀ e ∈ l, Event.isLoopEvt e = true) :
    l.countP q = 0 :=
  List.countP_eq_zero.mpr (fun e he => by simp [hq e (hl e he)])

/-- Inversion of `run_actor_lifecycle`: a run ends either through the
startup-failure short circuit or through the steady-state loop. -/
theorem run_lifecycle_cases (b : Behavior A S M) (selfId : ActorID)
    (links : List ActorID) (linkSendOk : ActorID → Bool) (sendOk : Bool)
    (mbBefore mbAfter : List (Signal M)) (fuel : Nat) (abortAt : Option Nat)
    (actor0 : A) (res : LifecycleResult A M)
    (hrun : run_actor_lifecycle b selfId links linkSendOk sendOk mbBefore mbAfter
      fuel abortAt actor0 = some res) :
    (∃ e, startResult (b.on_start actor0).2 = some e ∧
        res = startup_failure_exit b links sendOk e (b.on_start actor0).1) ∨
    (startResult (b.on_start actor0).2 = none ∧
      ∃ ex, actor_loop b.state fuel abortAt
          (b.state.new_from_actor (b.on_start actor0).1)
          (mailboxAfterEnqueue sendOk mbBefore mbAfter) = some ex ∧
        res = steady_exit b selfId links linkSendOk sendOk ex) := by
  unfold run_actor_lifecycle at hrun
  rcases hs : startResult (b.on_start actor0).2 with _ | e
  · rw [hs] at hrun
    simp only at hrun
    rcases hl : actor_loop b.state fuel abortAt
        (b.state.new_from_actor (b.on_start actor0).1)
        (mailboxAfterEnqueue sendOk mbBefore mbAfter) with _ | ex
    · rw [hl] at hrun
      simp at hrun
    · rw [hl] at hrun
      simp only [Option.some.injEq] at hrun
      exact Or.inr ⟨rfl, ex, rfl, hrun.symm⟩
  · rw [hs] at hrun
    simp only [Option.some.injEq] at hrun
    exact Or.inl ⟨e, rfl, hrun.symm⟩

/-- With an infallible `on_stop`, the startup-failure exit is a terminal pair. -/
theorem startup_failure_exit_isOk (b : Behavior A S M) (links : List ActorID)
    (sendOk : Bool) (e : PanicError) (actor : A)
    (hstop : ∀ a r, (b.on_stop a r).2 = none) :
    (startup_failure_exit b links sendOk e actor).outcome.isOk = true := by
  simp only [startup_failure_exit]
  rw [hstop]
  rfl

/-- With an infallible `on_stop`, the steady exit is a terminal pair. -/
theorem steady_exit_isOk (b : Behavior A S M) (selfId : ActorID) (links : List ActorID)
    (linkSendOk : ActorID → Bool) (sendOk : Bool) (ex : LoopExit S M)
    (hstop : ∀ a r, (b.on_stop a r).2 = none) :
    (steady_exit b selfId links linkSendOk sendOk ex).outcome.isOk = true := by
  simp only [steady_exit]
  rw [hstop]
  rfl

/-- **C1** (amended): every lifecycle run that terminates within its fuel
bound yields a terminal `(actor, reason)` pair as its return value — for
every outcome of the behavior callbacks: `on_start` returning an error or
panicking, handlers proposing any stop reason, and cancellation — provided
the final `on_stop` hook does not return an error.  (When `on_stop` returns
an error the lifecycle's `unwrap` panics instead: see the counterexample.) -/
theorem C1_terminal_pair (A S M : Type) (b : Behavior A S M) (selfId : ActorID)
    (links : List ActorID) (linkSendOk : ActorID → Bool) (sendOk : Bool)
    (mbBefore mbAfter : List (Signal M)) (fuel : Nat) (abortAt : Option Nat)
    (actor0 : A) (res : LifecycleResult A M)
    (hrun : run_actor_lifecycle b selfId links linkSendOk sendOk mbBefore mbAfter
      fuel abortAt actor0 = some res)
    (hstop : ∀ a r, (b.on_stop a r).2 = none) :
    res.outcome.isOk = true := by
  rcases run_lifecycle_cases b selfId links linkSendOk sendOk mbBefore mbAfter
      fuel abortAt actor0 res hrun with ⟨e, _, rfl⟩ | ⟨_, ex, _, rfl⟩
  · exact startup_failure_exit_isOk b links sendOk e (b.on_start actor0).1 hstop
  · exact steady_exit_isOk b selfId links linkSendOk sendOk ex hstop

/-- **C1** counterexample: a behavior whose `on_stop` returns `Err(7)` makes
the lifecycle end in the `unwrap` panic — the caller observes an abnormal
exit, not a terminal `(actor, reason)` pair. -/
theorem C1_counterexample :
    (run_actor_lifecycle errStopBehavior 1 [] (fun _ => true) true [] [] 4 none 0).map
      (fun r => r.outcome) = some (Except.error 7) := rfl

/-- **C1** witness: at `okBehavior` (infallible `on_stop`), the concrete
run's outcome is a terminal pair. -/
theorem C1_terminal_pair_witness :
    (steady_exit okBehavior 1 [] (fun _ => true) true
      (LoopExit.stopped 1 ActorStopReason.Normal
        [Event.Dispatch Signal.StartupFinished, Event.ReleaseGate,
         Event.DispatchClosed])).outcome.isOk = true :=
  C1_terminal_pair Nat Nat Nat okBehavior 1 [] (fun _ => true) true [] [] 4 none 0 _
    rfl (fun _ _ => rfl)

/-- **C8** counterexample: the inline `run` entry point does not bind the
ambient `CURRENT_ACTOR_ID` — with no ambient id in the caller's context the
lifecycle observes `none`, not the actor's own id. -/
theorem C8_counterexample :
    ¬ (okPrepared.run none 4 none).ambientId = some okPrepared.id := by
  decide

/-- **C8** (amended): the two spawn entry points (`spawn` and
`spawn_in_thread`) bind the actor's id into the ambient
currently-executing-actor context for the duration of the lifecycle run;
the inline `run` entry point instead leaves the caller's ambient context
unchanged. -/
theorem C8_ambient_binding (A S M : Type) (p : PreparedActor A S M)
    (callerAmbient : Option ActorID) (fuel : Nat) (abortAt : Option Nat) :
    (p.spawn callerAmbient fuel abortAt).ambientId = some p.id ∧
    (p.spawn_in_thread RuntimeFlavor.MultiThread callerAmbient fuel abortAt).map
      (fun o => o.ambientId) = Except.ok (some p.id) ∧
    (p.run callerAmbient fuel abortAt).ambientId = callerAmbient :=
  ⟨rfl, rfl, rfl⟩

/-- **C9**: spawning on a dedicated thread while the runtime flavor is
`CurrentThread` fails fast with the configuration panic, before any thread
is started and before any lifecycle work happens — it does not silently run
the actor inline. -/
theorem C9_single_thread_runtime_panics (A S M : Type) (p : PreparedActor A S M)
    (callerAmbient : Option ActorID) (fuel : Nat) (abortAt : Option Nat) :
    p.spawn_in_thread RuntimeFlavor.CurrentThread callerAmbient fuel abortAt =
      Except.error "threaded actors are not supported in a single threaded tokio runtime" :=
  rfl

/-- **C2**: exactly one `StartupFinished` sentinel enqueue is performed,
immediately after the startup hook completes (whether `on_start` succeeded
or failed — the trace always begins `OnStartCompleted, Enqueue`), and the
enqueue strictly precedes every dispatch of the actor's own receive loop
(all further events come after the enqueue event).  With sentinel-free
external traffic the mailbox then holds the sentinel exactly once.  (The
sentinel send is taken to succeed: the receiving end is owned by this very
lifecycle, so the channel is open.) -/
theorem C2_sentinel_once (A S M : Type) (b : Behavior A S M) (selfId : ActorID)
    (links : List ActorID) (linkSendOk : ActorID → Bool)
    (mbBefore mbAfter : List (Signal M)) (fuel : Nat) (abortAt : Option Nat)
    (actor0 : A) (res : LifecycleResult A M)
    (hrun : run_actor_lifecycle b selfId links linkSendOk true mbBefore mbAfter
      fuel abortAt actor0 = some res)
    (hb : mbBefore.countP Signal.isSentinel = 0)
    (ha : mbAfter.countP Signal.isSentinel = 0) :
    res.trace.countP Event.isEnqueueEvt = 1 ∧
    (∃ rest, res.trace =
        Event.OnStartCompleted :: Event.EnqueueStartupFinished true :: rest) ∧
    (mailboxAfterEnqueue true mbBefore mbAfter).countP Signal.isSentinel = 1 := by
  rcases run_lifecycle_cases b selfId links linkSendOk true mbBefore mbAfter
      fuel abortAt actor0 res hrun with ⟨e, hs, rfl⟩ | ⟨hs, ex, hl, rfl⟩
  · refine ⟨?_, ⟨_, rfl⟩, ?_⟩
    · simp [startup_failure_exit, List.countP_cons, Event.isEnqueueEvt]
    · simp [mailboxAfterEnqueue, List.countP_append, List.countP_cons, hb, ha,
        Signal.isSentinel]
  · obtain ⟨hloop, _, _⟩ := actor_loop_trace b.state fuel abortAt _ _ ex hl
    have hz : ex.trace.countP Event.isEnqueueEvt = 0 :=
      countP_eq_zero_of_loopEvts _ loopEvt_not_enqueue _ hloop
    refine ⟨?_, ⟨_, rfl⟩, ?_⟩
    · simp [steady_exit, List.countP_cons, List.countP_append, hz,
        Event.isEnqueueEvt, List.countP_map, Function.comp]
    · simp [mailboxAfterEnqueue, List.countP_append, List.countP_cons, hb, ha,
        Signal.isSentinel]

/-- **C2** witness: the concrete `okBehavior` run records exactly one
sentinel enqueue. -/
theorem C2_sentinel_once_witness : okRunRes.trace.countP Event.isEnqueueEvt = 1 :=
  (C2_sentinel_once Nat Nat Nat okBehavior 1 [] (fun _ => true) [] [] 4 none 0
    okRunRes rfl rfl rfl).1

/-- **C3** counterexample: for an actor whose startup hook fails, the gate
is never released — the run contains no release event at all — refuting
"the startup gate is released exactly once for every actor". -/
theorem C3_counterexample :
    ¬ (run_actor_lifecycle failStartBehavior 1 [] (fun _ => true) true [] [] 4 none 0).map
        (fun r => r.trace.countP Event.isReleaseEvt) = some 1 := by
  decide

/-- **C3** (amended): the startup gate is released at most once, and only
by the receive loop at the moment it dispatches the `StartupFinished`
sentinel (releases and sentinel dispatches are in bijection in the trace);
every event — hence any release — lies strictly after the startup hook
completed and the sentinel was enqueued.  An actor that never dispatches
the sentinel (e.g. one whose startup hook failed) never releases the gate. -/
theorem C3_gate_release (A S M : Type) (b : Behavior A S M) (selfId : ActorID)
    (links : List ActorID) (linkSendOk : ActorID → Bool) (sendOk : Bool)
    (mbBefore mbAfter : List (Signal M)) (fuel : Nat) (abortAt : Option Nat)
    (actor0 : A) (res : LifecycleResult A M)
    (hrun : run_actor_lifecycle b selfId links linkSendOk sendOk mbBefore mbAfter
      fuel abortAt actor0 = some res)
    (hb : mbBefore.countP Signal.isSentinel = 0)
    (ha : mbAfter.countP Signal.isSentinel = 0) :
    res.trace.countP Event.isReleaseEvt ≤ 1 ∧
    res.trace.countP Event.isReleaseEvt = res.trace.countP Event.isSentinelDispatchEvt ∧
    ∃ rest, res.trace =
      Event.OnStartCompleted :: Event.EnqueueStartupFinished sendOk :: rest := by
  have hmb : (mailboxAfterEnqueue sendOk mbBefore mbAfter).countP Signal.isSentinel ≤ 1 := by
    cases sendOk <;>
      simp [mailboxAfterEnqueue, List.countP_append, List.countP_cons, hb, ha,
        Signal.isSentinel]
  rcases run_lifecycle_cases b selfId links linkSendOk sendOk mbBefore mbAfter
      fuel abortAt actor0 res hrun with ⟨e, hs, rfl⟩ | ⟨hs, ex, hl, rfl⟩
  · refine ⟨?_, ?_, ⟨_, rfl⟩⟩ <;>
      simp [startup_failure_exit, List.countP_cons, Event.isReleaseEvt,
        Event.isSentinelDispatchEvt]
  · obtain ⟨hloop, hrel, hsd⟩ := actor_loop_trace b.state fuel abortAt _ _ ex hl
    have hsd1 : ex.trace.countP Event.isSentinelDispatchEvt ≤ 1 := le_trans hsd hmb
    have hmrel : (links.map (fun p =>
        (Event.NotifyLink p selfId ex.finalReason (linkSendOk p) : Event M))).countP
        Event.isReleaseEvt = 0 := by
      simp [Event.isReleaseEvt]
    have hmsd : (links.map (fun p =>
        (Event.NotifyLink p selfId ex.finalReason (linkSendOk p) : Event M))).countP
        Event.isSentinelDispatchEvt = 0 := by
      simp [Event.isSentinelDispatchEvt]
    refine ⟨?_, ?_, ⟨_, rfl⟩⟩
    · simp only [steady_exit, List.countP_cons, List.countP_append, hmrel]
      simp [Event.isReleaseEvt]
      omega
    · simp only [steady_exit, List.countP_cons, List.countP_append, hmrel, hmsd]
      simp [Event.isReleaseEvt, Event.isSentinelDispatchEvt, hrel]

/-- **C3** witness: the concrete `okBehavior` run releases the gate at most
once. -/
theorem C3_gate_release_witness : okRunRes.trace.countP Event.isReleaseEvt ≤ 1 :=
  (C3_gate_release Nat Nat Nat okBehavior 1 [] (fun _ => true) true [] [] 4 none 0
    okRunRes rfl rfl rfl).1

/-- **C4**: when the startup hook fails abnormally the stop reason is
classified `Panicked`, the shutdown-override hook may replace it (the final
reason is exactly `on_shutdown`'s answer, defaulting to `Panicked`), the
termination hook runs exactly once and with the final reason, the
steady-state receive loop is never entered (no dispatch, no gate release),
and no linked peer is notified (no notify event; the links map is left
untouched). -/
theorem C4_startup_failure_path (A S M : Type) (b : Behavior A S M) (selfId : ActorID)
    (links : List ActorID) (linkSendOk : ActorID → Bool) (sendOk : Bool)
    (mbBefore mbAfter : List (Signal M)) (fuel : Nat) (abortAt : Option Nat)
    (actor0 : A) (res : LifecycleResult A M) (e : PanicError)
    (hfail : startResult (b.on_start actor0).2 = some e)
    (hrun : run_actor_lifecycle b selfId links linkSendOk sendOk mbBefore mbAfter
      fuel abortAt actor0 = some res) :
    res.reason = ((b.state.on_shutdown (b.state.new_from_actor (b.on_start actor0).1)
        (ActorStopReason.Panicked e)).2).getD (ActorStopReason.Panicked e) ∧
    res.trace.countP Event.isDispatchEvt = 0 ∧
    res.trace.countP Event.isReleaseEvt = 0 ∧
    res.trace.countP Event.isNotifyEvt = 0 ∧
    res.trace.countP Event.isOnStopEvt = 1 ∧
    res.trace.countP (Event.isOnStopWith res.reason) = 1 ∧
    res.linksAfter = links ∧
    res.aborted = false := by
  rcases run_lifecycle_cases b selfId links linkSendOk sendOk mbBefore mbAfter
      fuel abortAt actor0 res hrun with ⟨e2, hs, rfl⟩ | ⟨hs, _, _, _⟩
  · rw [hfail] at hs
    injection hs with hs
    subst hs
    refine ⟨rfl, ?_, ?_, ?_, ?_, ?_, rfl, rfl⟩ <;>
      simp [startup_failure_exit, List.countP_cons, Event.isDispatchEvt,
        Event.isReleaseEvt, Event.isNotifyEvt, Event.isOnStopEvt, Event.isOnStopWith]
  · rw [hfail] at hs
    exact Option.noConfusion hs

/-- **C4** witness: the concrete `failStartBehavior` run dispatches no
signal. -/
theorem C4_startup_failure_path_witness : failRunRes.trace.countP Event.isDispatchEvt = 0 :=
  (C4_startup_failure_path Nat Nat Nat failStartBehavior 1 [] (fun _ => true) true
    [] [] 4 none 0 failRunRes (PanicError.fromPanic 3) rfl rfl).2.1

/-- Loop events never carry an exact link notification. -/
theorem loopEvt_not_notifyExact (p sid : ActorID) (r : ActorStopReason) (e : Event M)
    (h : Event.isLoopEvt e = true) : Event.notifyExact p sid r e = false := by
  cases e <;> simp_all [Event.isLoopEvt, Event.notifyExact]

/-- **C5**: whenever an actor terminates from the steady-state loop, every
entry of its Links map is sent exactly one `LinkDied` signal carrying this
actor's id and the final reason, the drained Links map is empty immediately
after termination, no peer is notified twice, and the number of
notifications equals the number of entries. -/
theorem C5_link_notification (A S M : Type) (b : Behavior A S M) (selfId : ActorID)
    (links : List ActorID) (linkSendOk : ActorID → Bool) (sendOk : Bool)
    (mbBefore mbAfter : List (Signal M)) (fuel : Nat) (abortAt : Option Nat)
    (actor0 : A) (res : LifecycleResult A M) (p : ActorID)
    (hstart : startResult (b.on_start actor0).2 = none)
    (hrun : run_actor_lifecycle b selfId links linkSendOk sendOk mbBefore mbAfter
      fuel abortAt actor0 = some res)
    (hnd : links.Nodup) (hp : p ∈ links) :
    res.linksAfter = [] ∧
    res.trace.countP (Event.notifyTo p) = 1 ∧
    res.trace.countP (Event.notifyExact p selfId res.reason) = 1 ∧
    res.trace.countP Event.isNotifyEvt = links.length := by
  rcases run_lifecycle_cases b selfId links linkSendOk sendOk mbBefore mbAfter
      fuel abortAt actor0 res hrun with ⟨e, hs, _⟩ | ⟨hs, ex, hl, rfl⟩
  · rw [hstart] at hs
    exact Option.noConfusion hs
  · obtain ⟨hloop, _, _⟩ := actor_loop_trace b.state fuel abortAt _ _ ex hl
    have hz1 : ex.trace.countP (Event.notifyTo p) = 0 :=
      countP_eq_zero_of_loopEvts _ (loopEvt_not_notifyTo p) _ hloop
    have hz2 : ex.trace.countP (Event.notifyExact p selfId ex.finalReason) = 0 :=
      countP_eq_zero_of_loopEvts _ (loopEvt_not_notifyExact p selfId ex.finalReason) _ hloop
    have hz3 : ex.trace.countP Event.isNotifyEvt = 0 :=
      countP_eq_zero_of_loopEvts _ loopEvt_not_notify _ hloop
    have hm1 : (links.map (fun q =>
        (Event.NotifyLink q selfId ex.finalReason (linkSendOk q) : Event M))).countP
        (Event.notifyTo p) = 1 := by
      rw [List.countP_map]
      have hc : links.countP ((Event.notifyTo p) ∘ fun q =>
          (Event.NotifyLink q selfId ex.finalReason (linkSendOk q) : Event M)) =
          links.countP (· == p) :=
        List.countP_congr (fun q _ => by simp [Event.notifyTo, Function.comp])
      rw [hc, ← List.count_eq_countP]
      exact List.count_eq_one_of_mem hnd hp
    have hm2 : (links.map (fun q =>
        (Event.NotifyLink q selfId ex.finalReason (linkSendOk q) : Event M))).countP
        (Event.notifyExact p selfId ex.finalReason) = 1 := by
      rw [List.countP_map]
      have hc : links.countP ((Event.notifyExact p selfId ex.finalReason) ∘ fun q =>
          (Event.NotifyLink q selfId ex.finalReason (linkSendOk q) : Event M)) =
          links.countP (· == p) :=
        List.countP_congr (fun q _ => by simp [Event.notifyExact, Function.comp])
      rw [hc, ← List.count_eq_countP]
      exact List.count_eq_one_of_mem hnd hp
    have hm3 : (links.map (fun q =>
        (Event.NotifyLink q selfId ex.finalReason (linkSendOk q) : Event M))).countP
        Event.isNotifyEvt = links.length := by
      rw [List.countP_map]
      have hc : links.countP (Event.isNotifyEvt ∘ fun q =>
          (Event.NotifyLink q selfId ex.finalReason (linkSendOk q) : Event M)) =
          links.countP (fun _ => true) :=
        List.countP_congr (fun q _ => by simp [Event.isNotifyEvt, Function.comp])
      rw [hc]
      simp
    refine ⟨rfl, ?_, ?_, ?_⟩
    · simp only [steady_exit, List.countP_cons, List.countP_append, hm1, hz1]
      simp [Event.notifyTo]
    · simp only [steady_exit, List.countP_cons, List.countP_append, hm2, hz2]
      simp [Event.notifyExact]
    · simp only [steady_exit, List.countP_cons, List.countP_append, hm3, hz3]
      simp [Event.isNotifyEvt]

/-- **C5** witness: in the concrete linked run, peer 5 is notified exactly
once. -/
theorem C5_link_notification_witness :
    okLinkRunRes.trace.countP (Event.notifyTo 5) = 1 :=
  (C5_link_notification Nat Nat Nat okBehavior 1 [5] (fun _ => true) true [] [] 4
    none 0 okLinkRunRes 5 rfl rfl (by simp) (by simp)).2.1

/-- With the cancellation trigger already fired, the abortable section
aborts at its first suspension point, before dispatching anything. -/
theorem actor_loop_abort_now (st : ActorState A S M) (fuel : Nat) (s : S)
    (mb : List (Signal M)) (ex : LoopExit S M)
    (h : actor_loop st fuel (some 0) s mb = some ex) :
    ex = LoopExit.aborted s [] := by
  cases fuel with
  | zero => simp [actor_loop] at h
  | succ fuel =>
    rw [actor_loop] at h
    simp at h
    exact h.symm

/-- **C6**: firing the cancellation trigger before the actor enters the
Running phase does not prevent the startup hook from completing — the run
still records `OnStartCompleted` and the sentinel enqueue, and only then is
the abort observed, yielding `Killed`; and whenever cancellation is
observed during the Running phase the lifecycle terminates with reason
`Killed` while still invoking the termination hook exactly once. -/
theorem C6_cancellation (A S M : Type) (b : Behavior A S M) (selfId : ActorID)
    (links : List ActorID) (linkSendOk : ActorID → Bool) (sendOk : Bool)
    (mbBefore mbAfter : List (Signal M)) (fuel : Nat) (abortAt : Option Nat)
    (actor0 : A) (res : LifecycleResult A M)
    (hstart : startResult (b.on_start actor0).2 = none)
    (hrun : run_actor_lifecycle b selfId links linkSendOk sendOk mbBefore mbAfter
      fuel abortAt actor0 = some res) :
    (abortAt = some 0 →
      (∃ rest, res.trace = Event.OnStartCompleted ::
        Event.EnqueueStartupFinished sendOk :: rest) ∧
      res.aborted = true ∧ res.reason = ActorStopReason.Killed) ∧
    (res.aborted = true →
      res.reason = ActorStopReason.Killed ∧
      res.trace.countP Event.isOnStopEvt = 1) := by
  rcases run_lifecycle_cases b selfId links linkSendOk sendOk mbBefore mbAfter
      fuel abortAt actor0 res hrun with ⟨e, hs, _⟩ | ⟨hs, ex, hl, rfl⟩
  · rw [hstart] at hs
    exact Option.noConfusion hs
  · obtain ⟨hloop, _, _⟩ := actor_loop_trace b.state fuel abortAt _ _ ex hl
    constructor
    · rintro rfl
      have hex := actor_loop_abort_now b.state fuel _ _ ex hl
      subst hex
      exact ⟨⟨_, rfl⟩, rfl, rfl⟩
    · intro hab
      cases ex with
      | stopped s r t => simp [steady_exit, LoopExit.isAborted] at hab
      | aborted s t =>
        refine ⟨rfl, ?_⟩
        have hz : (LoopExit.aborted s t : LoopExit S M).trace.countP
            Event.isOnStopEvt = 0 :=
          countP_eq_zero_of_loopEvts _ loopEvt_not_onStop _ hloop
        have hmz : (links.map (fun q => (Event.NotifyLink q selfId
            (LoopExit.aborted s t : LoopExit S M).finalReason (linkSendOk q) :
              Event M))).countP Event.isOnStopEvt = 0 := by
          simp [Event.isOnStopEvt]
        simp only [steady_exit, List.countP_cons, List.countP_append, hz, hmz]
        simp [Event.isOnStopEvt]

/-- **C6** witness: the concrete run with the trigger fired before entry
into Running ends `Killed` with one `on_stop` invocation. -/
theorem C6_cancellation_witness :
    killRunRes.reason = ActorStopReason.Killed ∧
    killRunRes.trace.countP Event.isOnStopEvt = 1 :=
  (C6_cancellation Nat Nat Nat okBehavior 1 [] (fun _ => true) true [] [] 4 (some 0)
    0 killRunRes rfl rfl).2 rfl

/-- **C7** counterexample: in the concrete linked run the raw actor value
is recovered *before* the linked peer is notified, so the claimed order
"finalize → notify links → recover raw value → on_stop" is violated. -/
theorem C7_counterexample : ¬ claimedShutdownOrder okLinkRunRes.trace = true := by
  decide

/-- **C7** (amended): shutdown from the steady-state loop is strictly
sequential in the order: finalize the stop reason, recover the raw actor
value from the state wrapper, notify every linked peer, invoke the
termination hook — the trace ends with exactly this segment and none of
these events occurs earlier. -/
theorem C7_shutdown_order (A S M : Type) (b : Behavior A S M) (selfId : ActorID)
    (links : List ActorID) (linkSendOk : ActorID → Bool) (sendOk : Bool)
    (mbBefore mbAfter : List (Signal M)) (fuel : Nat) (abortAt : Option Nat)
    (actor0 : A) (res : LifecycleResult A M)
    (hstart : startResult (b.on_start actor0).2 = none)
    (hrun : run_actor_lifecycle b selfId links linkSendOk sendOk mbBefore mbAfter
      fuel abortAt actor0 = some res) :
    ∃ pre, res.trace = pre ++ Event.FinalizeReason res.reason :: Event.RecoverActor ::
        (links.map (fun p => Event.NotifyLink p selfId res.reason (linkSendOk p)) ++
          [Event.OnStop res.reason]) ∧
      pre.countP Event.isFinalizeEvt = 0 ∧ pre.countP Event.isRecoverEvt = 0 ∧
      pre.countP Event.isNotifyEvt = 0 ∧ pre.countP Event.isOnStopEvt = 0 := by
  rcases run_lifecycle_cases b selfId links linkSendOk sendOk mbBefore mbAfter
      fuel abortAt actor0 res hrun with ⟨e, hs, _⟩ | ⟨hs, ex, hl, rfl⟩
  · rw [hstart] at hs
    exact Option.noConfusion hs
  · obtain ⟨hloop, _, _⟩ := actor_loop_trace b.state fuel abortAt _ _ ex hl
    refine ⟨Event.OnStartCompleted :: Event.EnqueueStartupFinished sendOk :: ex.trace,
      ?_, ?_, ?_, ?_, ?_⟩
    · simp [steady_exit, List.append_assoc]
    · simp [List.countP_cons, Event.isFinalizeEvt,
        countP_eq_zero_of_loopEvts _ loopEvt_not_finalize _ hloop]
    · simp [List.countP_cons, Event.isRecoverEvt,
        countP_eq_zero_of_loopEvts _ loopEvt_not_recover _ hloop]
    · simp [List.countP_cons, Event.isNotifyEvt,
        countP_eq_zero_of_loopEvts _ loopEvt_not_notify _ hloop]
    · simp [List.countP_cons, Event.isOnStopEvt,
        countP_eq_zero_of_loopEvts _ loopEvt_not_onStop _ hloop]

/-- **C7** witness: the amended shutdown ordering at the concrete linked
run. -/
theorem C7_shutdown_order_witness :
    ∃ pre, okLinkRunRes.trace = pre ++
        Event.FinalizeReason okLinkRunRes.reason :: Event.RecoverActor ::
        (([5] : List ActorID).map (fun p =>
          Event.NotifyLink p 1 okLinkRunRes.reason ((fun _ => true) p)) ++
          [Event.OnStop okLinkRunRes.reason]) ∧
      pre.countP Event.isFinalizeEvt = 0 ∧ pre.countP Event.isRecoverEvt = 0 ∧
      pre.countP Event.isNotifyEvt = 0 ∧ pre.countP Event.isOnStopEvt = 0 :=
  C7_shutdown_order Nat Nat Nat okBehavior 1 [5] (fun _ => true) true [] [] 4 none 0
    okLinkRunRes rfl rfl

/-- **C10**: a failed enqueue of the `StartupFinished` sentinel and failed
deliveries of `LinkDied` notifications are silently discarded: for every
value of the send-success environment, a terminating steady-state run still
executes the full shutdown sequence — raw-actor recovery, one notification
attempt per linked peer, a single `on_stop` call — empties the Links map,
surfaces no error and still returns the `(actor, reason)` pair. -/
theorem C10_send_failures_discarded (A S M : Type) (b : Behavior A S M)
    (selfId : ActorID) (links : List ActorID) (linkSendOk : ActorID → Bool)
    (sendOk : Bool) (mbBefore mbAfter : List (Signal M)) (fuel : Nat)
    (abortAt : Option Nat) (actor0 : A) (res : LifecycleResult A M)
    (hstart : startResult (b.on_start actor0).2 = none)
    (hrun : run_actor_lifecycle b selfId links linkSendOk sendOk mbBefore mbAfter
      fuel abortAt actor0 = some res)
    (hstop : ∀ a r, (b.on_stop a r).2 = none) :
    res.outcome.isOk = true ∧
    res.linksAfter = [] ∧
    res.trace.countP Event.isOnStopEvt = 1 ∧
    res.trace.countP Event.isNotifyEvt = links.length ∧
    res.trace.countP Event.isRecoverEvt = 1 := by
  rcases run_lifecycle_cases b selfId links linkSendOk sendOk mbBefore mbAfter
      fuel abortAt actor0 res hrun with ⟨e, hs, _⟩ | ⟨hs, ex, hl, rfl⟩
  · rw [hstart] at hs
    exact Option.noConfusion hs
  · obtain ⟨hloop, _, _⟩ := actor_loop_trace b.state fuel abortAt _ _ ex hl
    have hz1 : ex.trace.countP Event.isOnStopEvt = 0 :=
      countP_eq_zero_of_loopEvts _ loopEvt_not_onStop _ hloop
    have hz2 : ex.trace.countP Event.isNotifyEvt = 0 :=
      countP_eq_zero_of_loopEvts _ loopEvt_not_notify _ hloop
    have hz3 : ex.trace.countP Event.isRecoverEvt = 0 :=
      countP_eq_zero_of_loopEvts _ loopEvt_not_recover _ hloop
    have hm3 : (links.map (fun q =>
        (Event.NotifyLink q selfId ex.finalReason (linkSendOk q) : Event M))).countP
        Event.isNotifyEvt = links.length := by
      rw [List.countP_map]
      have hc : links.countP (Event.isNotifyEvt ∘ fun q =>
          (Event.NotifyLink q selfId ex.finalReason (linkSendOk q) : Event M)) =
          links.countP (fun _ => true) :=
        List.countP_congr (fun q _ => by simp [Event.isNotifyEvt, Function.comp])
      rw [hc]
      simp
    refine ⟨steady_exit_isOk b selfId links linkSendOk sendOk ex hstop, rfl, ?_, ?_, ?_⟩
    · simp only [steady_exit, List.countP_cons, List.countP_append, hz1]
      simp [Event.isOnStopEvt]
    · simp only [steady_exit, List.countP_cons, List.countP_append, hz2, hm3]
      simp [Event.isNotifyEvt]
    · simp only [steady_exit, List.countP_cons, List.countP_append, hz3]
      simp [Event.isRecoverEvt]

/-- **C10** witness: with every send failing, the concrete linked run still
attempts exactly one notification. -/
theorem C10_send_failures_discarded_witness :
    failSendRunRes.trace.countP Event.isNotifyEvt = 1 :=
  (C10_send_failures_discarded Nat Nat Nat okBehavior 1 [5] (fun _ => false) false
    [] [] 4 none 0 failSendRunRes rfl rfl (fun _ _ => rfl)).2.2.2.1

end Kameo
